import Mathlib

/-!
Shallow embedding of `src/main.py`, the pipeline driver of the
Build-ML-Pipeline repository.

The driver `go(config)` sets two environment variables, computes the list of
active steps from `config['main']['steps']`, and then runs six sequential
`if "<step>" in active_steps:` blocks, each calling `mlflow.run(location,
"main", parameters=...)`.  We model an execution as the list of externally
observable events it produces: environment-variable assignments
(`os.environ[k] = v`), file writes (the `rf_config.json` serialization), and
`mlflow.run` dispatches.

Modelling conventions:
  * Configuration values are modelled as strings (they are interpolated into
    the mlflow parameter dictionaries); `Config` has one field per
    `config[...]` access that `go` performs, plus `rfConfigJson` for the JSON
    serialization of `config["modeling"]["random_forest"]` that is written to
    `rf_config.json`.
  * `Ctx` carries the ambient execution context that `go` reads besides the
    configuration: `hydra.utils.get_original_cwd()` (the directory the user
    launched from) and the current working directory during the run (Hydra's
    timestamped run directory, against which `os.path.abspath` resolves).
  * `os.path.join(a, "src", b)` and `os.path.abspath("rf_config.json")` are
    modelled as string concatenation with `"/"` separators, which matches
    Python on absolute directory arguments not ending in a slash.
  * Python's `steps_par.split(",")` is modelled by `pySplitComma`, splitting
    the character list at every comma: like Python it keeps empty fragments
    and trims nothing ("a,b" gives ["a","b"], "" gives [""], "," gives
    ["",""], " a" gives [" a"]).
  * The commented-out local download block (a triple-quoted string literal in
    the source, lines 45-52) is dead code and is not modelled.
  * `tempfile.TemporaryDirectory()` is entered but `tmp_dir` is never used
    and no `chdir` occurs; it contributes no observable event.
-/

/-- One `mlflow.run(location, entry_point, parameters=...)` call: the project
location, the entry point, and the parameter dictionary in source order. -/
structure Dispatch where
  location : String
  entryPoint : String
  parameters : List (String × String)
deriving DecidableEq

/-- An observable event of the driver: an `os.environ[key] = value`
assignment, a file write, or an `mlflow.run` dispatch. -/
inductive Event where
  | setEnv (key value : String) : Event
  | writeFile (path content : String) : Event
  | run (d : Dispatch) : Event
deriving DecidableEq

/-- Does the event assign an environment variable? -/
def Event.isSetEnv : Event → Bool
  | .setEnv _ _ => true
  | _ => false

/-- The configuration values `go` reads, one field per `config[...]` access in
`src/main.py`. -/
structure Config where
  /-- `config["main"]["project_name"]` -/
  projectName : String
  /-- `config["main"]["experiment_name"]` -/
  experimentName : String
  /-- `config["main"]["steps"]` -/
  steps : String
  /-- `config["main"]["components_repository"]` -/
  componentsRepository : String
  /-- `config["etl"]["sample"]` -/
  etlSample : String
  /-- `config["etl"]["min_price"]` -/
  etlMinPrice : String
  /-- `config["etl"]["max_price"]` -/
  etlMaxPrice : String
  /-- `config["data_check"]["kl_threshold"]` -/
  klThreshold : String
  /-- `config["modeling"]["test_size"]` -/
  testSize : String
  /-- `config["modeling"]["random_seed"]` -/
  randomSeed : String
  /-- `config["modeling"]["stratify_by"]` -/
  stratifyBy : String
  /-- `config["modeling"]["val_size"]` -/
  valSize : String
  /-- `config["modeling"]["max_tfidf_features"]` -/
  maxTfidfFeatures : String
  /-- the JSON text `json.dump` produces for
  `dict(config["modeling"]["random_forest"].items())` -/
  rfConfigJson : String
deriving DecidableEq

/-- The ambient execution context `go` reads besides the configuration. -/
structure Ctx where
  /-- `hydra.utils.get_original_cwd()`: the directory the user launched from. -/
  originalCwd : String
  /-- the current working directory while `go` runs (Hydra's timestamped run
  directory); `os.path.abspath("rf_config.json")` resolves against it. -/
  runDir : String
deriving DecidableEq

/-- The static step list `_steps` of `src/main.py` lines 18-27.  The source
deliberately omits `"test_regression_model"` (its comment: the step must be
run explicitly after promoting a model to prod). -/
def _steps : List String :=
  ["download",
   "basic_cleaning",
   "data_check",
   "data_split",
   "train_random_forest"]

/-- Python's `s.split(",")`: split at every comma, keeping empty fragments
and performing no trimming or validation. -/
def pySplitComma (s : String) : List String :=
  (s.toList.splitOn ',').map String.mk

/-- Line 39 of the source applied to an arbitrary steps string:
`steps_par.split(",") if steps_par != "all" else _steps`. -/
def activeStepsOf (stepsPar : String) : List String :=
  if stepsPar ≠ "all" then pySplitComma stepsPar else _steps

/-- Lines 38-39: the active steps computed from `config['main']['steps']`. -/
def activeSteps (c : Config) : List String :=
  activeStepsOf c.steps

/-- Lines 54-61: the `mlflow.run` of the download step, targeting
`{components_repository}/get_data`. -/
def downloadDispatch (c : Config) : Dispatch :=
  { location := c.componentsRepository ++ "/get_data"
    entryPoint := "main"
    parameters := [("sample", c.etlSample),
                   ("artifact_name", "sample.csv"),
                   ("artifact_type", "raw_data"),
                   ("artifact_description", "Raw file as downloaded")] }

/-- Lines 63-72: the `mlflow.run` of the basic_cleaning step, targeting the
local `src/basic_cleaning` under the original working directory. -/
def basicCleaningDispatch (c : Config) (ctx : Ctx) : Dispatch :=
  { location := ctx.originalCwd ++ "/src/basic_cleaning"
    entryPoint := "main"
    parameters := [("input_artifact", "sample.csv:latest"),
                   ("output_artifact", "clean_sample.csv"),
                   ("output_type", "clean_sample"),
                   ("output_description", "Data with outliers and null values removed"),
                   ("min_price", c.etlMinPrice),
                   ("max_price", c.etlMaxPrice)] }

/-- Lines 74-80: the `mlflow.run` of the data_check step, targeting the local
`src/data_check` under the original working directory. -/
def dataCheckDispatch (c : Config) (ctx : Ctx) : Dispatch :=
  { location := ctx.originalCwd ++ "/src/data_check"
    entryPoint := "main"
    parameters := [("csv", "clean_sample.csv:latest"),
                   ("ref", "clean_sample.csv:reference"),
                   ("kl_threshold", c.klThreshold),
                   ("min_price", c.etlMinPrice),
                   ("max_price", c.etlMaxPrice)] }

/-- Lines 82-92: the `mlflow.run` of the data_split step, targeting
`{components_repository}/train_val_test_split`. -/
def dataSplitDispatch (c : Config) : Dispatch :=
  { location := c.componentsRepository ++ "/train_val_test_split"
    entryPoint := "main"
    parameters := [("input", "clean_sample.csv:latest"),
                   ("test_size", c.testSize),
                   ("random_seed", c.randomSeed),
                   ("stratify_by", c.stratifyBy)] }

/-- Line 96: `os.path.abspath("rf_config.json")`, resolved against the run
directory (the current working directory during the Hydra run). -/
def rfConfigPath (ctx : Ctx) : String :=
  ctx.runDir ++ "/rf_config.json"

/-- Lines 100-107: the `mlflow.run` of the train_random_forest step, targeting
the local `src/train_random_forest`; its `rf_config` parameter is the absolute
path of the serialized random-forest configuration. -/
def trainRandomForestDispatch (c : Config) (ctx : Ctx) : Dispatch :=
  { location := ctx.originalCwd ++ "/src/train_random_forest"
    entryPoint := "main"
    parameters := [("trainval_artifact", "trainval_data.csv:latest"),
                   ("val_size", c.valSize),
                   ("random_seed", c.randomSeed),
                   ("stratify_by", c.stratifyBy),
                   ("rf_config", rfConfigPath ctx),
                   ("max_tfidf_features", c.maxTfidfFeatures),
                   ("output_artifact", "random_forest_export")] }

/-- Lines 110-112: the `mlflow.run` of the test_regression_model step,
targeting `{components_repository}/test_regression_model`. -/
def testRegressionModelDispatch (c : Config) : Dispatch :=
  { location := c.componentsRepository ++ "/test_regression_model"
    entryPoint := "main"
    parameters := [("mlflow_model", "random_forest_export:prod"),
                   ("test_dataset", "test_data.csv:latest")] }

/-- Lines 42-112: the six sequential `if "<step>" in active_steps:` blocks, in
source order.  The train_random_forest block first writes the serialized
random-forest configuration to `rf_config.json` (lines 96-98), then runs. -/
def stepEvents (c : Config) (ctx : Ctx) : List Event :=
  (if "download" ∈ activeSteps c then
      [Event.run (downloadDispatch c)] else []) ++
  (if "basic_cleaning" ∈ activeSteps c then
      [Event.run (basicCleaningDispatch c ctx)] else []) ++
  (if "data_check" ∈ activeSteps c then
      [Event.run (dataCheckDispatch c ctx)] else []) ++
  (if "data_split" ∈ activeSteps c then
      [Event.run (dataSplitDispatch c)] else []) ++
  (if "train_random_forest" ∈ activeSteps c then
      [Event.writeFile (rfConfigPath ctx) c.rfConfigJson,
       Event.run (trainRandomForestDispatch c ctx)] else []) ++
  (if "test_regression_model" ∈ activeSteps c then
      [Event.run (testRegressionModelDispatch c)] else [])

/-- The driver `go` (lines 32-112): set `WANDB_PROJECT` and `WANDB_RUN_GROUP`
from the configuration (lines 34-35), then execute the step blocks. -/
def go (c : Config) (ctx : Ctx) : List Event :=
  [Event.setEnv "WANDB_PROJECT" c.projectName,
   Event.setEnv "WANDB_RUN_GROUP" c.experimentName] ++ stepEvents c ctx

/-- The run dispatches of an event trace, in order. -/
def runsOf (es : List Event) : List Dispatch :=
  es.filterMap fun e => match e with
    | .run d => some d
    | _ => none

/-- The six step names recognized by the dispatcher, in the order of the six
`if` blocks of the source. -/
def stepOrder : List String :=
  ["download",
   "basic_cleaning",
   "data_check",
   "data_split",
   "train_random_forest",
   "test_regression_model"]

/-- The dispatch that the block guarded by a given step name would issue. -/
def stepRun (n : String) (c : Config) (ctx : Ctx) : Dispatch :=
  if n = "download" then downloadDispatch c
  else if n = "basic_cleaning" then basicCleaningDispatch c ctx
  else if n = "data_check" then dataCheckDispatch c ctx
  else if n = "data_split" then dataSplitDispatch c
  else if n = "train_random_forest" then trainRandomForestDispatch c ctx
  else if n = "test_regression_model" then testRegressionModelDispatch c
  else { location := "", entryPoint := "", parameters := [] }

/-- The parameter keys of a dispatch, in order. -/
def Dispatch.keys (d : Dispatch) : List String :=
  d.parameters.map Prod.fst

/-- The configuration with the `steps` field replaced and every other field
unchanged (used to compare runs of the driver on different steps strings). -/
def withSteps (c : Config) (s : String) : Config :=
  { projectName := c.projectName
    experimentName := c.experimentName
    steps := s
    componentsRepository := c.componentsRepository
    etlSample := c.etlSample
    etlMinPrice := c.etlMinPrice
    etlMaxPrice := c.etlMaxPrice
    klThreshold := c.klThreshold
    testSize := c.testSize
    randomSeed := c.randomSeed
    stratifyBy := c.stratifyBy
    valSize := c.valSize
    maxTfidfFeatures := c.maxTfidfFeatures
    rfConfigJson := c.rfConfigJson }

/-- The string values that the six parameter dictionaries embed verbatim
(every dictionary value in the source that is a string literal). -/
def fixedLiterals : List String :=
  ["sample.csv", "raw_data", "Raw file as downloaded",
   "sample.csv:latest", "clean_sample.csv", "clean_sample",
   "Data with outliers and null values removed",
   "clean_sample.csv:latest", "clean_sample.csv:reference",
   "trainval_data.csv:latest", "random_forest_export",
   "random_forest_export:prod", "test_data.csv:latest"]

/-- The configuration values read by `go`: every `config[...]` access that
flows into a parameter dictionary or an environment variable. -/
def configValues (c : Config) : List String :=
  [c.projectName, c.experimentName, c.steps, c.componentsRepository,
   c.etlSample, c.etlMinPrice, c.etlMaxPrice, c.klThreshold,
   c.testSize, c.randomSeed, c.stratifyBy, c.valSize, c.maxTfidfFeatures]

/-- A sample configuration, parameterized by the steps string; the field
values are arbitrary pairwise-distinct strings used for concrete runs of the
model. -/
def baseCfg (s : String) : Config :=
  { projectName := "nyc_airbnb"
    experimentName := "development"
    steps := s
    componentsRepository := "https://github.com/udacity/components"
    etlSample := "sample1.csv"
    etlMinPrice := "10"
    etlMaxPrice := "350"
    klThreshold := "0.2"
    testSize := "0.25"
    randomSeed := "42"
    stratifyBy := "neighbourhood_group"
    valSize := "0.3"
    maxTfidfFeatures := "5"
    rfConfigJson := "serialized_random_forest_json" }

/-- A sample execution context: a launch directory and a Hydra run directory. -/
def ctx0 : Ctx :=
  { originalCwd := "/home/user/project"
    runDir := "/home/user/project/outputs/2026-10-12/10-00-00" }

/-- A second execution context, differing from `ctx0` only in the run
directory (a later Hydra run of the same launch directory). -/
def ctx1 : Ctx :=
  { originalCwd := "/home/user/project"
    runDir := "/home/user/project/outputs/2026-10-12/10-05-00" }

/-! ### Helper lemmas about the event trace of `go` -/

theorem keys_download (c : Config) :
    (downloadDispatch c).keys =
      ["sample", "artifact_name", "artifact_type", "artifact_description"] := rfl

theorem keys_basicCleaning (c : Config) (ctx : Ctx) :
    (basicCleaningDispatch c ctx).keys =
      ["input_artifact", "output_artifact", "output_type", "output_description",
       "min_price", "max_price"] := rfl

theorem keys_dataCheck (c : Config) (ctx : Ctx) :
    (dataCheckDispatch c ctx).keys =
      ["csv", "ref", "kl_threshold", "min_price", "max_price"] := rfl

theorem keys_dataSplit (c : Config) :
    (dataSplitDispatch c).keys =
      ["input", "test_size", "random_seed", "stratify_by"] := rfl

theorem keys_trainRandomForest (c : Config) (ctx : Ctx) :
    (trainRandomForestDispatch c ctx).keys =
      ["trainval_artifact", "val_size", "random_seed", "stratify_by",
       "rf_config", "max_tfidf_features", "output_artifact"] := rfl

theorem keys_testRegressionModel (c : Config) :
    (testRegressionModelDispatch c).keys =
      ["mlflow_model", "test_dataset"] := rfl

theorem dl_ne_bc (c : Config) (ctx : Ctx) :
    downloadDispatch c ≠ basicCleaningDispatch c ctx := by
  intro h
  have hk := congrArg Dispatch.keys h
  rw [keys_download, keys_basicCleaning] at hk
  exact absurd hk (by decide)

theorem dl_ne_dc (c : Config) (ctx : Ctx) :
    downloadDispatch c ≠ dataCheckDispatch c ctx := by
  intro h
  have hk := congrArg Dispatch.keys h
  rw [keys_download, keys_dataCheck] at hk
  exact absurd hk (by decide)

theorem dl_ne_ds (c : Config) :
    downloadDispatch c ≠ dataSplitDispatch c := by
  intro h
  have hk := congrArg Dispatch.keys h
  rw [keys_download, keys_dataSplit] at hk
  exact absurd hk (by decide)

theorem dl_ne_trf (c : Config) (ctx : Ctx) :
    downloadDispatch c ≠ trainRandomForestDispatch c ctx := by
  intro h
  have hk := congrArg Dispatch.keys h
  rw [keys_download, keys_trainRandomForest] at hk
  exact absurd hk (by decide)

theorem dl_ne_trm (c : Config) :
    downloadDispatch c ≠ testRegressionModelDispatch c := by
  intro h
  have hk := congrArg Dispatch.keys h
  rw [keys_download, keys_testRegressionModel] at hk
  exact absurd hk (by decide)

theorem bc_ne_dc (c : Config) (ctx : Ctx) :
    basicCleaningDispatch c ctx ≠ dataCheckDispatch c ctx := by
  intro h
  have hk := congrArg Dispatch.keys h
  rw [keys_basicCleaning, keys_dataCheck] at hk
  exact absurd hk (by decide)

theorem bc_ne_ds (c : Config) (ctx : Ctx) :
    basicCleaningDispatch c ctx ≠ dataSplitDispatch c := by
  intro h
  have hk := congrArg Dispatch.keys h
  rw [keys_basicCleaning, keys_dataSplit] at hk
  exact absurd hk (by decide)

theorem bc_ne_trf (c : Config) (ctx : Ctx) :
    basicCleaningDispatch c ctx ≠ trainRandomForestDispatch c ctx := by
  intro h
  have hk := congrArg Dispatch.keys h
  rw [keys_basicCleaning, keys_trainRandomForest] at hk
  exact absurd hk (by decide)

theorem bc_ne_trm (c : Config) (ctx : Ctx) :
    basicCleaningDispatch c ctx ≠ testRegressionModelDispatch c := by
  intro h
  have hk := congrArg Dispatch.keys h
  rw [keys_basicCleaning, keys_testRegressionModel] at hk
  exact absurd hk (by decide)

theorem dc_ne_ds (c : Config) (ctx : Ctx) :
    dataCheckDispatch c ctx ≠ dataSplitDispatch c := by
  intro h
  have hk := congrArg Dispatch.keys h
  rw [keys_dataCheck, keys_dataSplit] at hk
  exact absurd hk (by decide)

theorem dc_ne_trf (c : Config) (ctx : Ctx) :
    dataCheckDispatch c ctx ≠ trainRandomForestDispatch c ctx := by
  intro h
  have hk := congrArg Dispatch.keys h
  rw [keys_dataCheck, keys_trainRandomForest] at hk
  exact absurd hk (by decide)

theorem dc_ne_trm (c : Config) (ctx : Ctx) :
    dataCheckDispatch c ctx ≠ testRegressionModelDispatch c := by
  intro h
  have hk := congrArg Dispatch.keys h
  rw [keys_dataCheck, keys_testRegressionModel] at hk
  exact absurd hk (by decide)

theorem ds_ne_trf (c : Config) (ctx : Ctx) :
    dataSplitDispatch c ≠ trainRandomForestDispatch c ctx := by
  intro h
  have hk := congrArg Dispatch.keys h
  rw [keys_dataSplit, keys_trainRandomForest] at hk
  exact absurd hk (by decide)

theorem ds_ne_trm (c : Config) :
    dataSplitDispatch c ≠ testRegressionModelDispatch c := by
  intro h
  have hk := congrArg Dispatch.keys h
  rw [keys_dataSplit, keys_testRegressionModel] at hk
  exact absurd hk (by decide)

theorem trf_ne_trm (c : Config) (ctx : Ctx) :
    trainRandomForestDispatch c ctx ≠ testRegressionModelDispatch c := by
  intro h
  have hk := congrArg Dispatch.keys h
  rw [keys_trainRandomForest, keys_testRegressionModel] at hk
  exact absurd hk (by decide)

theorem mem_ite_nil {α : Type} (a : α) (P : Prop) [Decidable P] (l : List α) :
    (a ∈ if P then l else []) ↔ P ∧ a ∈ l := by
  split <;> rename_i h <;> simp [h]

theorem runsOf_go (c : Config) (ctx : Ctx) :
    runsOf (go c ctx) =
      (if "download" ∈ activeSteps c then [downloadDispatch c] else []) ++
      (if "basic_cleaning" ∈ activeSteps c then [basicCleaningDispatch c ctx] else []) ++
      (if "data_check" ∈ activeSteps c then [dataCheckDispatch c ctx] else []) ++
      (if "data_split" ∈ activeSteps c then [dataSplitDispatch c] else []) ++
      (if "train_random_forest" ∈ activeSteps c then [trainRandomForestDispatch c ctx] else []) ++
      (if "test_regression_model" ∈ activeSteps c then [testRegressionModelDispatch c] else []) := by
  simp only [go, stepEvents, runsOf]
  split_ifs <;> rfl

theorem mem_runsOf (d : Dispatch) (c : Config) (ctx : Ctx) :
    d ∈ runsOf (go c ctx) ↔
      ("download" ∈ activeSteps c ∧ d = downloadDispatch c) ∨
      ("basic_cleaning" ∈ activeSteps c ∧ d = basicCleaningDispatch c ctx) ∨
      ("data_check" ∈ activeSteps c ∧ d = dataCheckDispatch c ctx) ∨
      ("data_split" ∈ activeSteps c ∧ d = dataSplitDispatch c) ∨
      ("train_random_forest" ∈ activeSteps c ∧ d = trainRandomForestDispatch c ctx) ∨
      ("test_regression_model" ∈ activeSteps c ∧ d = testRegressionModelDispatch c) := by
  rw [runsOf_go]
  simp [mem_ite_nil, or_assoc]

theorem stepRun_download (c : Config) (ctx : Ctx) :
    stepRun "download" c ctx = downloadDispatch c := rfl

theorem stepRun_basicCleaning (c : Config) (ctx : Ctx) :
    stepRun "basic_cleaning" c ctx = basicCleaningDispatch c ctx := rfl

theorem stepRun_dataCheck (c : Config) (ctx : Ctx) :
    stepRun "data_check" c ctx = dataCheckDispatch c ctx := rfl

theorem stepRun_dataSplit (c : Config) (ctx : Ctx) :
    stepRun "data_split" c ctx = dataSplitDispatch c := rfl

theorem stepRun_trainRandomForest (c : Config) (ctx : Ctx) :
    stepRun "train_random_forest" c ctx = trainRandomForestDispatch c ctx := rfl

theorem stepRun_testRegressionModel (c : Config) (ctx : Ctx) :
    stepRun "test_regression_model" c ctx = testRegressionModelDispatch c := rfl

theorem runsOf_go_filter (c : Config) (ctx : Ctx) :
    runsOf (go c ctx) =
      (stepOrder.filter (fun n => decide (n ∈ activeSteps c))).map
        (fun n => stepRun n c ctx) := by
  rw [runsOf_go]
  by_cases h1 : "download" ∈ activeSteps c <;>
  by_cases h2 : "basic_cleaning" ∈ activeSteps c <;>
  by_cases h3 : "data_check" ∈ activeSteps c <;>
  by_cases h4 : "data_split" ∈ activeSteps c <;>
  by_cases h5 : "train_random_forest" ∈ activeSteps c <;>
  by_cases h6 : "test_regression_model" ∈ activeSteps c <;>
    simp [stepOrder, List.filter_cons, h1, h2, h3, h4, h5, h6,
          stepRun_download, stepRun_basicCleaning, stepRun_dataCheck,
          stepRun_dataSplit, stepRun_trainRandomForest, stepRun_testRegressionModel]

/-! ### Claim theorems -/

/-- C1 (counterexample): with the steps configuration equal to "all", the
driver issues five run dispatches, not six — `_steps` omits
`test_regression_model`, so the claim of exactly six dispatches is false. -/
theorem go_all_not_six_dispatches :
    (baseCfg "all").steps = "all" ∧ (runsOf (go (baseCfg "all") ctx0)).length ≠ 6 := by
  decide

/-- C1 (amended): when the steps configuration equals "all", `go` dispatches
exactly five runs — download, basic_cleaning, data_check, data_split and
train_random_forest, in that order; `test_regression_model` is deliberately
excluded from the static list `_steps`. -/
theorem go_all_dispatches (c : Config) (ctx : Ctx) (h : c.steps = "all") :
    runsOf (go c ctx) =
      [downloadDispatch c, basicCleaningDispatch c ctx, dataCheckDispatch c ctx,
       dataSplitDispatch c, trainRandomForestDispatch c ctx] := by
  have ha : activeSteps c = _steps := by simp [activeSteps, activeStepsOf, h]
  rw [runsOf_go, ha]
  simp [_steps]

/-- C1 (witness): the amended claim evaluated at a concrete configuration
whose steps string is "all". -/
theorem go_all_dispatches_witness :
    runsOf (go (baseCfg "all") ctx0) =
      [downloadDispatch (baseCfg "all"), basicCleaningDispatch (baseCfg "all") ctx0,
       dataCheckDispatch (baseCfg "all") ctx0, dataSplitDispatch (baseCfg "all"),
       trainRandomForestDispatch (baseCfg "all") ctx0] :=
  go_all_dispatches (baseCfg "all") ctx0 rfl

/-- C2: the run dispatches of `go` always appear in the fixed source order
download, basic_cleaning, data_check, data_split, train_random_forest,
test_regression_model (the trace is the fixed `stepOrder` list filtered by
membership in the active steps), and permuting the step names inside the
comma-separated steps string leaves the whole event trace unchanged. -/
theorem go_dispatch_order (c : Config) (ctx : Ctx) (s t : String)
    (h : List.Perm (activeStepsOf s) (activeStepsOf t)) :
    runsOf (go c ctx) =
      (stepOrder.filter (fun n => decide (n ∈ activeSteps c))).map
        (fun n => stepRun n c ctx) ∧
    go (withSteps c s) ctx = go (withSteps c t) ctx := by
  constructor
  · exact runsOf_go_filter c ctx
  · have e : ∀ a : String, (a ∈ activeStepsOf s) = (a ∈ activeStepsOf t) :=
      fun a => propext h.mem_iff
    simp only [go, stepEvents, activeSteps, withSteps, downloadDispatch,
               basicCleaningDispatch, dataCheckDispatch, dataSplitDispatch,
               trainRandomForestDispatch, testRegressionModelDispatch, e]

/-- C2 (witness): the theorem applied at a concrete configuration and the two
steps strings "basic_cleaning,download" and "download,basic_cleaning". -/
theorem go_dispatch_order_witness :
    go (withSteps (baseCfg "all") "basic_cleaning,download") ctx0 =
      go (withSteps (baseCfg "all") "download,basic_cleaning") ctx0 := by
  have e1 : activeStepsOf "basic_cleaning,download" = ["basic_cleaning", "download"] := by
    decide
  have e2 : activeStepsOf "download,basic_cleaning" = ["download", "basic_cleaning"] := by
    decide
  have hp : List.Perm (activeStepsOf "basic_cleaning,download")
      (activeStepsOf "download,basic_cleaning") := by
    rw [e1, e2]
    exact List.Perm.swap "download" "basic_cleaning" []
  exact (go_dispatch_order (baseCfg "all") ctx0 "basic_cleaning,download"
    "download,basic_cleaning" hp).2

/-- C3: for each of the six recognized step names, that step's run is in the
trace of `go` if and only if the name is an element of the comma-split steps
string (when the steps string differs from "all"), respectively an element of
the static list `_steps` (when the steps string equals "all"). -/
theorem step_dispatched_iff (c : Config) (ctx : Ctx) (n : String)
    (hn : n ∈ stepOrder) :
    stepRun n c ctx ∈ runsOf (go c ctx) ↔
      (if c.steps = "all" then n ∈ _steps else n ∈ pySplitComma c.steps) := by
  have hact : ∀ m : String, (m ∈ activeSteps c) =
      (if c.steps = "all" then m ∈ _steps else m ∈ pySplitComma c.steps) := by
    intro m
    by_cases hall : c.steps = "all" <;> simp [activeSteps, activeStepsOf, hall]
  simp only [stepOrder, List.mem_cons, List.not_mem_nil, or_false] at hn
  rcases hn with rfl | rfl | rfl | rfl | rfl | rfl <;>
    simp [stepRun_download, stepRun_basicCleaning, stepRun_dataCheck, stepRun_dataSplit,
          stepRun_trainRandomForest, stepRun_testRegressionModel, mem_runsOf, hact,
          dl_ne_bc c ctx, (dl_ne_bc c ctx).symm, dl_ne_dc c ctx, (dl_ne_dc c ctx).symm,
          dl_ne_ds c, (dl_ne_ds c).symm, dl_ne_trf c ctx, (dl_ne_trf c ctx).symm,
          dl_ne_trm c, (dl_ne_trm c).symm, bc_ne_dc c ctx, (bc_ne_dc c ctx).symm,
          bc_ne_ds c ctx, (bc_ne_ds c ctx).symm, bc_ne_trf c ctx, (bc_ne_trf c ctx).symm,
          bc_ne_trm c ctx, (bc_ne_trm c ctx).symm, dc_ne_ds c ctx, (dc_ne_ds c ctx).symm,
          dc_ne_trf c ctx, (dc_ne_trf c ctx).symm, dc_ne_trm c ctx, (dc_ne_trm c ctx).symm,
          ds_ne_trf c ctx, (ds_ne_trf c ctx).symm, ds_ne_trm c, (ds_ne_trm c).symm,
          trf_ne_trm c ctx, (trf_ne_trm c ctx).symm]

/-- C3 (witness): the dispatch criterion evaluated for the download step at a
concrete configuration whose steps string is "download,data_check". -/
theorem step_dispatched_iff_witness :
    stepRun "download" (baseCfg "download,data_check") ctx0 ∈
        runsOf (go (baseCfg "download,data_check") ctx0) ↔
      (if (baseCfg "download,data_check").steps = "all" then "download" ∈ _steps
       else "download" ∈ pySplitComma (baseCfg "download,data_check").steps) :=
  step_dispatched_iff (baseCfg "download,data_check") ctx0 "download" (by decide)

/-- C4: artifacts are named consistently across the parameter dictionaries:
the download step outputs "sample.csv", basic_cleaning reads
"sample.csv:latest" and outputs "clean_sample.csv", and data_check and
data_split both read "clean_sample.csv:latest". -/
theorem artifact_names_consistent (c : Config) (ctx : Ctx) :
    ("artifact_name", "sample.csv") ∈ (downloadDispatch c).parameters ∧
    ("input_artifact", "sample.csv:latest") ∈ (basicCleaningDispatch c ctx).parameters ∧
    ("output_artifact", "clean_sample.csv") ∈ (basicCleaningDispatch c ctx).parameters ∧
    ("csv", "clean_sample.csv:latest") ∈ (dataCheckDispatch c ctx).parameters ∧
    ("input", "clean_sample.csv:latest") ∈ (dataSplitDispatch c).parameters := by
  refine ⟨?_, ?_, ?_, ?_, ?_⟩ <;>
    simp [downloadDispatch, basicCleaningDispatch, dataCheckDispatch, dataSplitDispatch]

/-- C5 (counterexample): the basic_cleaning run is dispatched from a local
path under the original working directory; its location does not have the
components repository as a prefix, so not every dispatched step resolves to
the components repository. -/
theorem components_repository_counterexample :
    basicCleaningDispatch (baseCfg "basic_cleaning") ctx0 ∈
        runsOf (go (baseCfg "basic_cleaning") ctx0) ∧
    List.isPrefixOf ((baseCfg "basic_cleaning").componentsRepository.toList)
        ((basicCleaningDispatch (baseCfg "basic_cleaning") ctx0).location.toList) = false := by
  decide

/-- C5 (amended): every dispatched run targets either the components
repository (download, data_split and test_regression_model, at locations
interpolated from `config['main']['components_repository']`) or a local step
under `src/` of the original working directory (basic_cleaning, data_check
and train_random_forest). -/
theorem go_locations (c : Config) (ctx : Ctx) :
    ∀ d ∈ runsOf (go c ctx),
      d.location ∈ [c.componentsRepository ++ "/get_data",
                    c.componentsRepository ++ "/train_val_test_split",
                    c.componentsRepository ++ "/test_regression_model"] ∨
      d.location ∈ [ctx.originalCwd ++ "/src/basic_cleaning",
                    ctx.originalCwd ++ "/src/data_check",
                    ctx.originalCwd ++ "/src/train_random_forest"] := by
  intro d hd
  rw [mem_runsOf] at hd
  rcases hd with ⟨_, rfl⟩ | ⟨_, rfl⟩ | ⟨_, rfl⟩ | ⟨_, rfl⟩ | ⟨_, rfl⟩ | ⟨_, rfl⟩ <;>
    simp [downloadDispatch, basicCleaningDispatch, dataCheckDispatch, dataSplitDispatch,
          trainRandomForestDispatch, testRegressionModelDispatch]

/-- C5 (witness): the amended claim evaluated at the dispatched download run
of a concrete configuration. -/
theorem go_locations_witness :
    (downloadDispatch (baseCfg "download")).location ∈
        [(baseCfg "download").componentsRepository ++ "/get_data",
         (baseCfg "download").componentsRepository ++ "/train_val_test_split",
         (baseCfg "download").componentsRepository ++ "/test_regression_model"] ∨
      (downloadDispatch (baseCfg "download")).location ∈
        [ctx0.originalCwd ++ "/src/basic_cleaning",
         ctx0.originalCwd ++ "/src/data_check",
         ctx0.originalCwd ++ "/src/train_random_forest"] :=
  go_locations (baseCfg "download") ctx0 (downloadDispatch (baseCfg "download")) (by decide)

/-- C6 (counterexample): two executions with equal configurations but
different run directories (two Hydra runs started at different times) produce
different run dispatch sequences, because the train_random_forest block passes
the absolute path of `rf_config.json` as a parameter; so the dispatch
sequence is not a function of the configuration alone. -/
theorem deterministic_counterexample :
    runsOf (go (baseCfg "train_random_forest") ctx0) ≠
      runsOf (go (baseCfg "train_random_forest") ctx1) := by
  decide

/-- C6 (amended): the driver is deterministic and stateless as a function of
the configuration together with the execution context (original working
directory and run directory); whenever none of basic_cleaning, data_check and
train_random_forest is active, the whole event trace depends on the
configuration alone and is unchanged across execution contexts. -/
theorem go_ctx_independent (c : Config) (ctx ctx' : Ctx)
    (h1 : "basic_cleaning" ∉ activeSteps c) (h2 : "data_check" ∉ activeSteps c)
    (h3 : "train_random_forest" ∉ activeSteps c) :
    go c ctx = go c ctx' := by
  simp only [go, stepEvents, if_neg h1, if_neg h2, if_neg h3]

/-- C6 (witness): the amended claim evaluated at a concrete configuration
activating only the three context-independent steps, across the two sample
execution contexts. -/
theorem go_ctx_independent_witness :
    go (baseCfg "download,data_split,test_regression_model") ctx0 =
      go (baseCfg "download,data_split,test_regression_model") ctx1 :=
  go_ctx_independent (baseCfg "download,data_split,test_regression_model") ctx0 ctx1
    (by decide) (by decide) (by decide)

/-- C7 (counterexample): the `rf_config` value of the train_random_forest
parameter dictionary is the absolute path of the serialized random-forest
configuration file; it is neither one of the fixed string literals of the
source nor a value read from the configuration object. -/
theorem param_provenance_counterexample :
    trainRandomForestDispatch (baseCfg "train_random_forest") ctx0 ∈
        runsOf (go (baseCfg "train_random_forest") ctx0) ∧
    ("rf_config", rfConfigPath ctx0) ∈
        (trainRandomForestDispatch (baseCfg "train_random_forest") ctx0).parameters ∧
    rfConfigPath ctx0 ∉ fixedLiterals ∧
    rfConfigPath ctx0 ∉ configValues (baseCfg "train_random_forest") := by
  decide

/-- C7 (amended): every value of every parameter dictionary of a dispatched
run is a fixed string literal of the source, a value read from the
configuration object, or — solely for the `rf_config` parameter of
train_random_forest — the absolute path of the serialized random-forest
configuration file under the run directory. -/
theorem go_param_values (c : Config) (ctx : Ctx) :
    ∀ d ∈ runsOf (go c ctx), ∀ kv ∈ d.parameters,
      kv.2 ∈ fixedLiterals ∨ kv.2 ∈ configValues c ∨ kv.2 = rfConfigPath ctx := by
  intro d hd
  rw [mem_runsOf] at hd
  rcases hd with ⟨_, rfl⟩ | ⟨_, rfl⟩ | ⟨_, rfl⟩ | ⟨_, rfl⟩ | ⟨_, rfl⟩ | ⟨_, rfl⟩ <;>
    simp [downloadDispatch, basicCleaningDispatch, dataCheckDispatch, dataSplitDispatch,
          trainRandomForestDispatch, testRegressionModelDispatch, fixedLiterals,
          configValues, List.forall_mem_cons]

/-- C7 (witness): the amended claim evaluated at the "sample" parameter of
the dispatched download run of a concrete configuration. -/
theorem go_param_values_witness :
    "sample1.csv" ∈ fixedLiterals ∨ "sample1.csv" ∈ configValues (baseCfg "download") ∨
      "sample1.csv" = rfConfigPath ctx0 :=
  go_param_values (baseCfg "download") ctx0 (downloadDispatch (baseCfg "download"))
    (by decide) ("sample", "sample1.csv") (by decide)

/-- C8: when the steps string differs from "all", the dispatch sequence is
exactly the fixed step order filtered by exact membership in the comma-split
steps string — the split trims no whitespace, and a token matching none of
the six recognized names contributes no dispatch and raises no error (the
trace is total and defined by this equation for every configuration). -/
theorem unmatched_tokens_ignored (c : Config) (ctx : Ctx) (h : c.steps ≠ "all") :
    runsOf (go c ctx) =
      (stepOrder.filter (fun n => decide (n ∈ pySplitComma c.steps))).map
        (fun n => stepRun n c ctx) := by
  have ha : activeSteps c = pySplitComma c.steps := by
    simp [activeSteps, activeStepsOf, h]
  simp only [runsOf_go_filter c ctx, ha]

/-- C8 (witness): a steps string holding the token " download" (a correct
name carrying a leading space) dispatches nothing for that token while the
exactly-matching token "basic_cleaning" still dispatches. -/
theorem unmatched_tokens_ignored_witness :
    (baseCfg " download,basic_cleaning").steps ≠ "all" ∧
    runsOf (go (baseCfg " download,basic_cleaning") ctx0) =
      [basicCleaningDispatch (baseCfg " download,basic_cleaning") ctx0] := by
  refine ⟨by decide, ?_⟩
  rw [unmatched_tokens_ignored (baseCfg " download,basic_cleaning") ctx0 (by decide)]
  decide

/-- C9: with the steps configuration equal to "all" the test_regression_model
run is never dispatched, and in general it is dispatched exactly when the
name "test_regression_model" occurs verbatim in the comma-split steps
string. -/
theorem test_regression_model_needs_explicit (c : Config) (ctx : Ctx) :
    (c.steps = "all" → testRegressionModelDispatch c ∉ runsOf (go c ctx)) ∧
    (testRegressionModelDispatch c ∈ runsOf (go c ctx) ↔
      "test_regression_model" ∈ pySplitComma c.steps) := by
  have hmem : testRegressionModelDispatch c ∈ runsOf (go c ctx) ↔
      "test_regression_model" ∈ activeSteps c := by
    rw [mem_runsOf]
    simp [(dl_ne_trm c).symm, (bc_ne_trm c ctx).symm, (dc_ne_trm c ctx).symm,
          (ds_ne_trm c).symm, (trf_ne_trm c ctx).symm]
  constructor
  · intro hall hmem'
    rw [hmem] at hmem'
    simp [activeSteps, activeStepsOf, hall, _steps] at hmem'
  · rw [hmem]
    by_cases hall : c.steps = "all"
    · simp [activeSteps, activeStepsOf, hall, _steps,
            (by decide : "test_regression_model" ∉ pySplitComma "all")]
    · simp [activeSteps, activeStepsOf, hall]

/-- C9 (witness): with a concrete configuration whose steps string is "all",
the test_regression_model run is absent from the trace. -/
theorem test_regression_model_needs_explicit_witness :
    testRegressionModelDispatch (baseCfg "all") ∉ runsOf (go (baseCfg "all") ctx0) :=
  (test_regression_model_needs_explicit (baseCfg "all") ctx0).1 rfl

/-- C10: on every invocation, the trace of `go` begins with exactly the two
environment assignments WANDB_PROJECT := project_name and
WANDB_RUN_GROUP := experiment_name — before any dispatch, for every
configuration (also when no step is active) — and no event after them is an
environment assignment. -/
theorem wandb_env_first (c : Config) (ctx : Ctx) :
    go c ctx = [Event.setEnv "WANDB_PROJECT" c.projectName,
                Event.setEnv "WANDB_RUN_GROUP" c.experimentName] ++ stepEvents c ctx ∧
    ∀ e ∈ stepEvents c ctx, e.isSetEnv = false := by
  refine ⟨rfl, ?_⟩
  intro e he
  simp only [stepEvents, List.mem_append, mem_ite_nil, List.mem_cons,
             List.not_mem_nil, or_false, or_assoc] at he
  rcases he with ⟨_, rfl⟩ | ⟨_, rfl⟩ | ⟨_, rfl⟩ | ⟨_, rfl⟩ | ⟨_, rfl | rfl⟩ | ⟨_, rfl⟩ <;> rfl

/-- C10 (witness): no event of the step blocks of a concrete run is an
environment assignment (evaluated at the download run event). -/
theorem wandb_env_first_witness :
    Event.isSetEnv (Event.run (downloadDispatch (baseCfg "download"))) = false :=
  (wandb_env_first (baseCfg "download") ctx0).2
    (Event.run (downloadDispatch (baseCfg "download"))) (by decide)
